import Mathlib

/-!
Shallow embedding of the thermodynamic core of the weather-visualization app
(`src/utils/thermo.ts`) and of the saturation-curve sampling loop of
`src/components/IsenthalpicDiagram.tsx`, together with theorems settling the
specification claims about them.

JavaScript numbers are modelled by real numbers; the decimal literals of the
source (0.6108, 17.27, 237.3, 0.066, 0.5) are exact rationals both here and in
binary floating point where relevant (0.5), so the branch structure of the
embedding matches the source.  The sampling loop of the diagram component runs
over exactly representable multiples of 0.5, so it is embedded over ℚ.
-/

/-- Psychrometric constant (kPa/°C), `GAMMA` in `src/utils/thermo.ts`. -/
noncomputable def GAMMA : ℝ := 0.066

/-- `calculateSatVaporPressure` from `src/utils/thermo.ts`:
`0.6108 * Math.exp((17.27 * T) / (237.3 + T))`. -/
noncomputable def calculateSatVaporPressure (T : ℝ) : ℝ :=
  0.6108 * Real.exp ((17.27 * T) / (237.3 + T))

/-- The regime tag returned by `calculateIsothermalVaporPressure`. -/
inductive Regime where
  | limited : Regime
  | saturated : Regime
deriving DecidableEq

/-- The record `{ eI, regime }` returned by `calculateIsothermalVaporPressure`. -/
structure IVPResult where
  eI : ℝ
  regime : Regime

/-- `calculateIsothermalVaporPressure` from `src/utils/thermo.ts`. -/
noncomputable def calculateIsothermalVaporPressure (Ts Ta : ℝ) : IVPResult :=
  let es_star := calculateSatVaporPressure Ts
  let ea_star := calculateSatVaporPressure Ta
  let projected_e := es_star - GAMMA * (Ta - Ts)
  if Ts ≤ Ta then
    { eI := projected_e, regime := Regime.limited }
  else
    { eI := ea_star, regime := Regime.saturated }

/-- `calculateLEI` from `src/utils/thermo.ts`. -/
noncomputable def calculateLEI (Qn eI ea es_star Ts Ta : ℝ) : ℝ :=
  let denominator := (es_star - ea) - GAMMA * (Ta - Ts)
  if denominator = 0 then 0
  else if Ts ≤ Ta then Qn
  else
    let ea_star := calculateSatVaporPressure Ta
    Qn * ((ea_star - ea) / denominator)

/-- The Tetens/Magnus closed form as the specification writes it:
`0.6108 * exp(17.27 * T / (237.3 + T))`. -/
noncomputable def tetensFormula (T : ℝ) : ℝ :=
  0.6108 * Real.exp (17.27 * T / (237.3 + T))

/-- Helper: on the physical domain `-237.3 < T`, the saturation vapor
pressure is strictly increasing (the Tetens exponent is strictly increasing
there, and `exp` and the positive leading coefficient preserve strictness). -/
lemma satVaporPressure_lt_of_lt {T1 T2 : ℝ} (h1 : -237.3 < T1) (h12 : T1 < T2) :
    calculateSatVaporPressure T1 < calculateSatVaporPressure T2 := by
  unfold calculateSatVaporPressure
  have hd1 : (0 : ℝ) < 237.3 + T1 := by linarith
  have hd2 : (0 : ℝ) < 237.3 + T2 := by linarith
  have hexp : (17.27 * T1) / (237.3 + T1) < (17.27 * T2) / (237.3 + T2) := by
    rw [div_lt_div_iff hd1 hd2]
    nlinarith
  have := Real.exp_lt_exp.mpr hexp
  nlinarith [Real.exp_pos ((17.27 * T1) / (237.3 + T1))]

/-- Helper: the saturation vapor pressure is strictly positive everywhere
(the exponential is positive and the coefficient 0.6108 is positive). -/
lemma satVaporPressure_pos (T : ℝ) : 0 < calculateSatVaporPressure T := by
  unfold calculateSatVaporPressure
  have := Real.exp_pos ((17.27 * T) / (237.3 + T))
  nlinarith

/-- Claim C6: `calculateSatVaporPressure` is exactly the Tetens/Magnus closed
form `0.6108 * exp(17.27 * T / (237.3 + T))`, as a function of its argument
alone: the two functions are equal. -/
theorem C6_satVapor_is_tetens : calculateSatVaporPressure = tetensFormula := rfl

/-- Claim C8: `calculateLEI` does not depend on its `eI` parameter: any two
values of `eI` give the same result for the same remaining arguments. -/
theorem C8_LEI_independent_of_eI (Qn eI1 eI2 ea es_star Ts Ta : ℝ) :
    calculateLEI Qn eI1 ea es_star Ts Ta = calculateLEI Qn eI2 ea es_star Ts Ta := rfl

/-- Claim C9: the two regime formulas agree at the boundary `Ts = Ta = T`:
the energy-limited projection `e*(T) - GAMMA * (T - T)` equals the
energy-saturated value `e*(T)`, and `calculateIsothermalVaporPressure T T`
(which takes the limited branch) returns exactly `e*(T)`. -/
theorem C9_continuous_at_boundary (T : ℝ) :
    calculateSatVaporPressure T - GAMMA * (T - T) = calculateSatVaporPressure T ∧
    (calculateIsothermalVaporPressure T T).eI = calculateSatVaporPressure T := by
  constructor
  · ring
  · simp [calculateIsothermalVaporPressure]

/-- Claim C10: for every temperature above the Tetens pole `-237.3`, the
saturation vapor pressure is strictly positive. -/
theorem C10_satVapor_pos (T : ℝ) (h : -237.3 < T) :
    0 < calculateSatVaporPressure T :=
  satVaporPressure_pos T

/-- Witness for C10 at `T = 0`. -/
theorem C10_satVapor_pos_witness :
    (-237.3 : ℝ) < 0 ∧ 0 < calculateSatVaporPressure 0 :=
  ⟨by norm_num, C10_satVapor_pos 0 (by norm_num)⟩

/-- Claim C1 counterexample: with `Ts = 0 ≤ Ta = 1` but `es_star = 0.066` and
`ea = 0`, the denominator `(es_star - ea) - GAMMA * (Ta - Ts)` vanishes, so the
zero-denominator guard fires and `calculateLEI` returns `0`, not `Qn = 5`. -/
theorem C1_counterexample :
    (0 : ℝ) ≤ 1 ∧ calculateLEI 5 0 0 0.066 0 1 ≠ 5 := by
  constructor
  · norm_num
  · norm_num [calculateLEI, GAMMA]

/-- Claim C1 (amended): for `Ts ≤ Ta`, whenever the denominator
`(es_star - ea) - GAMMA * (Ta - Ts)` is nonzero (so the division-by-zero guard
does not fire), `calculateLEI` returns exactly `Qn`. -/
theorem C1_LEI_energy_limited (Qn eI ea es_star Ts Ta : ℝ)
    (hle : Ts ≤ Ta) (hden : (es_star - ea) - GAMMA * (Ta - Ts) ≠ 0) :
    calculateLEI Qn eI ea es_star Ts Ta = Qn := by
  simp only [calculateLEI]
  rw [if_neg hden, if_pos hle]

/-- Witness for the amended C1 at `Qn = 5`, `es_star = 2`, `Ts = 0`, `Ta = 1`. -/
theorem C1_LEI_energy_limited_witness :
    (0 : ℝ) ≤ 1 ∧ ((2 : ℝ) - 0) - GAMMA * (1 - 0) ≠ 0 ∧
      calculateLEI 5 0 0 2 0 1 = 5 :=
  ⟨by norm_num, by norm_num [GAMMA],
    C1_LEI_energy_limited 5 0 0 2 0 1 (by norm_num) (by norm_num [GAMMA])⟩

/-- Claim C2: `calculateIsothermalVaporPressure Ts Ta` returns regime
`limited` with the isenthalpic projection `e*(Ts) - GAMMA * (Ta - Ts)` when
`Ts ≤ Ta`, and regime `saturated` with the saturation value `e*(Ta)`
when `Ts > Ta`. -/
theorem C2_regime_selection (Ts Ta : ℝ) :
    (Ts ≤ Ta → calculateIsothermalVaporPressure Ts Ta =
      { eI := calculateSatVaporPressure Ts - GAMMA * (Ta - Ts)
        regime := Regime.limited }) ∧
    (Ta < Ts → calculateIsothermalVaporPressure Ts Ta =
      { eI := calculateSatVaporPressure Ta, regime := Regime.saturated }) := by
  constructor
  · intro h
    simp only [calculateIsothermalVaporPressure]
    rw [if_pos h]
  · intro h
    simp only [calculateIsothermalVaporPressure]
    rw [if_neg (not_le.mpr h)]

/-- Witness for C2 at `(Ts, Ta) = (2, 3)` (limited) and `(3, 2)` (saturated). -/
theorem C2_regime_selection_witness :
    ((2 : ℝ) ≤ 3 ∧ calculateIsothermalVaporPressure 2 3 =
      { eI := calculateSatVaporPressure 2 - GAMMA * (3 - 2)
        regime := Regime.limited }) ∧
    ((2 : ℝ) < 3 ∧ calculateIsothermalVaporPressure 3 2 =
      { eI := calculateSatVaporPressure 2, regime := Regime.saturated }) :=
  ⟨⟨by norm_num, (C2_regime_selection 2 3).1 (by norm_num)⟩,
    ⟨by norm_num, (C2_regime_selection 3 2).2 (by norm_num)⟩⟩

/-- Claim C5: if the denominator `(es_star - ea) - GAMMA * (Ta - Ts)` is zero,
`calculateLEI` returns `0`; if it is nonzero, no guard fires and the function
returns the arithmetic value of the taken branch (`Qn` when `Ts ≤ Ta`, else
`Qn * ((e*(Ta) - ea) / denominator)`). -/
theorem C5_zero_denominator_guard (Qn eI ea es_star Ts Ta : ℝ) :
    ((es_star - ea) - GAMMA * (Ta - Ts) = 0 →
      calculateLEI Qn eI ea es_star Ts Ta = 0) ∧
    ((es_star - ea) - GAMMA * (Ta - Ts) ≠ 0 →
      (Ts ≤ Ta → calculateLEI Qn eI ea es_star Ts Ta = Qn) ∧
      (¬ Ts ≤ Ta → calculateLEI Qn eI ea es_star Ts Ta =
        Qn * ((calculateSatVaporPressure Ta - ea) /
          ((es_star - ea) - GAMMA * (Ta - Ts))))) := by
  constructor
  · intro h
    simp only [calculateLEI]
    rw [if_pos h]
  · intro hden
    constructor
    · intro hle
      simp only [calculateLEI]
      rw [if_neg hden, if_pos hle]
    · intro hgt
      simp only [calculateLEI]
      rw [if_neg hden, if_neg hgt]

/-- Witness for C5: the guard fires at `es_star = 0.066, ea = 0, Ts = 0,
Ta = 1` and returns `0`; with `es_star = 2` the denominator is nonzero and the
limited branch returns `Qn = 7`. -/
theorem C5_zero_denominator_guard_witness :
    (((0.066 : ℝ) - 0) - GAMMA * (1 - 0) = 0 ∧ calculateLEI 7 0 0 0.066 0 1 = 0) ∧
    (((2 : ℝ) - 0) - GAMMA * (1 - 0) ≠ 0 ∧ calculateLEI 7 0 0 2 0 1 = 7) :=
  ⟨⟨by norm_num [GAMMA], (C5_zero_denominator_guard 7 0 0 0.066 0 1).1 (by norm_num [GAMMA])⟩,
    ⟨by norm_num [GAMMA],
      ((C5_zero_denominator_guard 7 0 0 2 0 1).2 (by norm_num [GAMMA])).1 (by norm_num)⟩⟩

/-- Helper: exact value of the Tetens exponent at `T = -227.3` (just above the
pole of the exponent at `-237.3`). -/
lemma satVapor_at_m227 :
    calculateSatVaporPressure (-227.3) = 0.6108 * Real.exp (-392.5471) := by
  unfold calculateSatVaporPressure
  norm_num

/-- Helper: exact value of the Tetens exponent at `T = -247.3` (just below the
pole of the exponent at `-237.3`). -/
lemma satVapor_at_m247 :
    calculateSatVaporPressure (-247.3) = 0.6108 * Real.exp 427.0871 := by
  unfold calculateSatVaporPressure
  norm_num

/-- Claim C4 counterexample: across the pole of the Tetens exponent at
`T = -237.3` the function is not increasing: `-247.3 < -227.3` but
`calculateSatVaporPressure (-247.3) > calculateSatVaporPressure (-227.3)`
(the exponent jumps from `+427.0871` down to `-392.5471`). -/
theorem C4_counterexample :
    (-247.3 : ℝ) < -227.3 ∧
    ¬ calculateSatVaporPressure (-247.3) < calculateSatVaporPressure (-227.3) := by
  refine ⟨by norm_num, ?_⟩
  rw [not_lt, satVapor_at_m227, satVapor_at_m247]
  have h : Real.exp (-392.5471) < Real.exp 427.0871 :=
    Real.exp_lt_exp.mpr (by norm_num)
  nlinarith [Real.exp_pos ((-392.5471 : ℝ))]

/-- Claim C4 (amended): on the domain above the pole, `-237.3 < T1 < T2`, the
saturation vapor pressure is strictly increasing. -/
theorem C4_satVapor_strictMono (T1 T2 : ℝ) (h1 : -237.3 < T1) (h12 : T1 < T2) :
    calculateSatVaporPressure T1 < calculateSatVaporPressure T2 :=
  satVaporPressure_lt_of_lt h1 h12

/-- Witness for the amended C4 at `T1 = 10`, `T2 = 20`. -/
theorem C4_satVapor_strictMono_witness :
    (-237.3 : ℝ) < 10 ∧ (10 : ℝ) < 20 ∧
      calculateSatVaporPressure 10 < calculateSatVaporPressure 20 :=
  ⟨by norm_num, by norm_num, C4_satVapor_strictMono 10 20 (by norm_num) (by norm_num)⟩

/-- Claim C3 counterexample: with `Ta = -247.3` below the Tetens pole and
`Ts = -227.3 > Ta`, `Qn = 1 > 0`, `ea = 0` (so `0 ≤ ea < e*(Ta)`, since
`e*(Ta)` is huge there) and `es_star = e*(Ts)`, the returned flux is at least
`1 = Qn`, not strictly below it. -/
theorem C3_counterexample :
    (-247.3 : ℝ) < -227.3 ∧ (0 : ℝ) < 1 ∧ (0 : ℝ) ≤ 0 ∧
    (0 : ℝ) < calculateSatVaporPressure (-247.3) ∧
    ¬ calculateLEI 1 0 0 (calculateSatVaporPressure (-227.3)) (-227.3) (-247.3) < 1 := by
  have hA : calculateSatVaporPressure (-227.3) < 0.6108 := by
    rw [satVapor_at_m227]
    have h1 : Real.exp (-392.5471 : ℝ) < 1 := Real.exp_lt_one_iff.mpr (by norm_num)
    nlinarith [Real.exp_pos ((-392.5471 : ℝ))]
  have hB : (261 : ℝ) ≤ calculateSatVaporPressure (-247.3) := by
    rw [satVapor_at_m247]
    nlinarith [Real.add_one_le_exp ((427.0871 : ℝ))]
  have hApos := satVaporPressure_pos (-227.3)
  have hdenpos : (0 : ℝ) <
      (calculateSatVaporPressure (-227.3) - 0) - GAMMA * ((-247.3) - (-227.3)) := by
    unfold GAMMA
    nlinarith
  refine ⟨by norm_num, by norm_num, by norm_num, satVaporPressure_pos _, ?_⟩
  rw [not_lt]
  simp only [calculateLEI]
  rw [if_neg (ne_of_gt hdenpos), if_neg (by norm_num : ¬ (-227.3 : ℝ) ≤ -247.3)]
  rw [one_mul, le_div_iff hdenpos]
  unfold GAMMA
  unfold GAMMA at hdenpos
  nlinarith

/-- Claim C3 (amended): for physically meaningful temperatures
`-237.3 < Ta < Ts`, positive available energy `Qn`, plausible humidity
`0 ≤ ea < e*(Ta)` and `es_star = e*(Ts)`, the flux `calculateLEI` is strictly
between `0` and `Qn`. -/
theorem C3_LEI_saturated_between (Qn eI ea es_star Ts Ta : ℝ)
    (hTa : -237.3 < Ta) (hgt : Ta < Ts) (hQn : 0 < Qn)
    (hea0 : 0 ≤ ea) (hea : ea < calculateSatVaporPressure Ta)
    (hes : es_star = calculateSatVaporPressure Ts) :
    0 < calculateLEI Qn eI ea es_star Ts Ta ∧
      calculateLEI Qn eI ea es_star Ts Ta < Qn := by
  subst hes
  have hmono : calculateSatVaporPressure Ta < calculateSatVaporPressure Ts :=
    satVaporPressure_lt_of_lt hTa hgt
  have hGAMMA : (0 : ℝ) < GAMMA := by unfold GAMMA; norm_num
  have hdenpos : 0 < (calculateSatVaporPressure Ts - ea) - GAMMA * (Ta - Ts) := by
    nlinarith
  have hnumden : calculateSatVaporPressure Ta - ea <
      (calculateSatVaporPressure Ts - ea) - GAMMA * (Ta - Ts) := by
    nlinarith
  have hnumpos : 0 < calculateSatVaporPressure Ta - ea := by linarith
  simp only [calculateLEI]
  rw [if_neg (ne_of_gt hdenpos), if_neg (not_le.mpr hgt)]
  constructor
  · exact mul_pos hQn (div_pos hnumpos hdenpos)
  · have hlt1 : (calculateSatVaporPressure Ta - ea) /
        ((calculateSatVaporPressure Ts - ea) - GAMMA * (Ta - Ts)) < 1 :=
      (div_lt_one hdenpos).mpr hnumden
    nlinarith

/-- Witness for the amended C3 at `Ts = 30`, `Ta = 20`, `Qn = 1`, `ea = 1`. -/
theorem C3_LEI_saturated_between_witness :
    (-237.3 : ℝ) < 20 ∧ (20 : ℝ) < 30 ∧ (0 : ℝ) < 1 ∧ (0 : ℝ) ≤ 1 ∧
    (1 : ℝ) < calculateSatVaporPressure 20 ∧
    (0 < calculateLEI 1 0 1 (calculateSatVaporPressure 30) 30 20 ∧
      calculateLEI 1 0 1 (calculateSatVaporPressure 30) 30 20 < 1) := by
  have h20 : (1 : ℝ) < calculateSatVaporPressure 20 := by
    unfold calculateSatVaporPressure
    nlinarith [Real.add_one_le_exp ((17.27 * 20) / (237.3 + 20) : ℝ)]
  exact ⟨by norm_num, by norm_num, by norm_num, by norm_num, h20,
    C3_LEI_saturated_between 1 0 1 _ 30 20 (by norm_num) (by norm_num)
      (by norm_num) (by norm_num) h20 rfl⟩

/-- `minT` from `IsenthalpicDiagram.tsx`: lower end of the temperature
domain. -/
def minT : ℚ := 0

/-- `maxT` from `IsenthalpicDiagram.tsx`: upper end of the temperature
domain. -/
def maxT : ℚ := 40

/-- The temperatures visited by the sampling loop of `saturationCurvePath` in
`IsenthalpicDiagram.tsx`: `for (let t = minT; t <= maxT; t += 0.5)`.  The loop
variable stays an exact multiple of 0.5 in binary floating point, so the ℚ
embedding is exact. -/
def curveLoop (t : ℚ) : List ℚ :=
  if h : t ≤ maxT then t :: curveLoop (t + 0.5) else []
termination_by (Int.ceil ((maxT + 1 - t) * 2)).toNat
decreasing_by
  simp only [maxT] at h ⊢
  have hstep : ((40 : ℚ) + 1 - (t + 0.5)) * 2 = ((40 : ℚ) + 1 - t) * 2 - 1 := by ring
  rw [hstep, Int.ceil_sub_one]
  have h1 : (1 : ℤ) < Int.ceil (((40 : ℚ) + 1 - t) * 2) := by
    rw [Int.lt_ceil]
    push_cast
    linarith
  omega

/-- The `saturationCurvePath` computation of `IsenthalpicDiagram.tsx`,
modelled as the list of (temperature, saturation vapor pressure) points of the
SVG path: the initial `M` point at `minT` followed by one `L` point per loop
iteration.  The component props `Ts`, `Ta`, `ea` are parameters of the
component closure; the `useMemo` body reads none of them. -/
noncomputable def saturationCurvePath (Ts Ta ea : ℝ) : List (ℚ × ℝ) :=
  (minT, calculateSatVaporPressure ((minT : ℚ) : ℝ)) ::
    (curveLoop minT).map (fun t => (t, calculateSatVaporPressure ((t : ℚ) : ℝ)))

/-- Helper: unfolding of `curveLoop` when the loop condition holds. -/
lemma curveLoop_of_le {t : ℚ} (h : t ≤ maxT) :
    curveLoop t = t :: curveLoop (t + 0.5) := by
  rw [curveLoop]
  simp [h]

/-- Helper: unfolding of `curveLoop` when the loop condition fails. -/
lemma curveLoop_of_gt {t : ℚ} (h : ¬ t ≤ maxT) : curveLoop t = [] := by
  rw [curveLoop]
  simp [h]

/-- Helper: the loop started `k` half-degrees below `40` visits exactly the
`k + 1` temperatures `40 - k/2 + i/2` for `i = 0, …, k`. -/
lemma curveLoop_eq_range (k : ℕ) :
    curveLoop (40 - (k : ℚ) / 2) =
      (List.range (k + 1)).map (fun i : ℕ => 40 - (k : ℚ) / 2 + (i : ℚ) / 2) := by
  induction k with
  | zero =>
    rw [curveLoop_of_le (by norm_num [maxT])]
    rw [curveLoop_of_gt (by norm_num [maxT])]
    norm_num [List.range_succ]
  | succ k ih =>
    rw [curveLoop_of_le (by push_cast [maxT]; linarith [Nat.cast_nonneg (α := ℚ) k])]
    have harg : (40 : ℚ) - ((k : ℕ) + 1 : ℕ) / 2 + 0.5 = 40 - (k : ℚ) / 2 := by
      push_cast
      ring
    rw [harg, ih]
    nth_rewrite 2 [List.range_succ_eq_map]
    simp only [List.map_cons, List.map_map]
    congr 1
    · push_cast
      ring
    · congr 1
      funext i
      simp only [Function.comp_apply, Nat.succ_eq_add_one]
      push_cast
      ring

/-- Claim C7: the saturation-curve sampling is a fixed evaluation: the path is
identical for any two values of the component inputs `Ts`, `Ta`, `ea`; the loop
visits exactly the 81 temperatures `0, 0.5, …, 40`; and the path holds 82
points (the initial `M` point at `minT` plus one per loop iteration),
each evaluating `calculateSatVaporPressure`. -/
theorem C7_fixed_sampling (Ts Ta ea Ts' Ta' ea' : ℝ) :
    saturationCurvePath Ts Ta ea = saturationCurvePath Ts' Ta' ea' ∧
    curveLoop minT = (List.range 81).map (fun i : ℕ => (i : ℚ) / 2) ∧
    (saturationCurvePath Ts Ta ea).length = 82 := by
  have h80 := curveLoop_eq_range 80
  norm_num at h80
  refine ⟨rfl, ?_, ?_⟩
  · rw [minT]
    exact h80
  · simp [saturationCurvePath, minT, h80]
